import Mathlib

/-!
# Verification of the mock-brokerage tool dispatcher

Shallow embedding of the market-aware dispatcher (`executeTool`, `updateMarket`,
`createAccount`, the JSON-RPC handler) of the mock Zerodha MCP server.
JavaScript numbers are modelled as exact rationals (`ℚ`); quantities, which the
code passes through `parseInt`, as `Int`; `parseFloat(x.toFixed(2))` as decimal
rounding `round2` (round half up, exact on the nonnegative values arising here).
`Math.random()` draws are modelled as explicit streams `ℕ → ℚ` of values in
`[0,1)`; `Date.now()` and `new Date().toISOString()` as explicit parameters.
The session map only transports the current session's account into the
dispatcher, so the embedding passes that account directly.
-/

namespace ZerodhaMock

/-- `parseFloat(x.toFixed(2))`: round to 2 decimal places, half up. -/
def round2 (q : ℚ) : ℚ := ((⌊q * 100 + 1/2⌋ : ℤ) : ℚ) / 100

/-- A portfolio position: `{ symbol, qty, price }`. -/
structure Holding where
  symbol : String
  qty : Int
  price : ℚ
deriving DecidableEq

/-- An order record as pushed by `place-order`
(`{ id, symbol, qty, side, price, time }`).  The formatted confirmation
message echoing these fields is presentation only and not modelled. -/
structure Order where
  id : String
  symbol : String
  qty : Int
  side : Option String
  price : ℚ
  time : String
deriving DecidableEq

/-- `{ balance, holdings, orders }`. -/
structure Account where
  balance : ℚ
  holdings : List Holding
  orders : List Order
deriving DecidableEq

/-- `createAccount()`. -/
def createAccount : Account :=
  { balance := 100000
    holdings :=
      [ { symbol := "TCS", qty := 10, price := 3400 }
      , { symbol := "RELIANCE", qty := 5, price := 2800 }
      , { symbol := "INFY", qty := 15, price := 1500 } ]
    orders := [] }

/-- One instrument of the market state: `{ price, trend }`. -/
structure Stock where
  price : ℚ
  trend : String
deriving DecidableEq

/-- A news record: `{ headline, sentiment, symbol }`. -/
structure News where
  headline : String
  sentiment : String
  symbol : String
deriving DecidableEq

/-- `marketState`: insertion-ordered symbol table plus `lastUpdate`
timestamp and the static news list. -/
structure MarketState where
  stocks : List (String × Stock)
  lastUpdate : Int
  news : List News
deriving DecidableEq

/-- The `marketState.stocks` literal. -/
def initialStocks : List (String × Stock) :=
  [ ("TCS", { price := 3450, trend := "UP" })
  , ("RELIANCE", { price := 2850, trend := "FLAT" })
  , ("INFY", { price := 1520, trend := "DOWN" })
  , ("HDFC", { price := 1680, trend := "UP" })
  , ("WIPRO", { price := 460, trend := "DOWN" })
  , ("TATAMOTORS", { price := 980, trend := "UP" }) ]

/-- The `marketState.news` literal. -/
def initialNews : List News :=
  [ { headline := "TCS bags $1B deal from UK insurer", sentiment := "POSITIVE", symbol := "TCS" }
  , { headline := "Reliance expected to post weak quarterly results", sentiment := "NEGATIVE", symbol := "RELIANCE" }
  , { headline := "Tech sector rally continues as Nasdaq surges", sentiment := "POSITIVE", symbol := "INFY" }
  , { headline := "Auto sales drop 5% in March", sentiment := "NEGATIVE", symbol := "TATAMOTORS" } ]

/-- The `marketState` literal at module-load time `t0`. -/
def initialMarketState (t0 : Int) : MarketState :=
  { stocks := initialStocks, lastUpdate := t0, news := initialNews }

/-- `marketState.stocks[sym]` as an association-list lookup. -/
def lookupStock (m : MarketState) (sym : String) : Option Stock :=
  (m.stocks.find? (fun p => p.1 == sym)).map Prod.snd

/-- One instrument update inside `updateMarket`:
`move = (Math.random() - 0.5) * 10`, price rounded, trend from the sign
of the move. -/
def updateStock (r : ℚ) (s : Stock) : Stock :=
  let move := (r - 1/2) * 10
  { price := round2 (s.price + move), trend := if 0 < move then "UP" else "DOWN" }

/-- `updateMarket()`: time-gated refresh of every instrument, consuming one
random draw per instrument in table order. -/
def updateMarket (now : Int) (rnd : ℕ → ℚ) (m : MarketState) : MarketState :=
  if 5000 < now - m.lastUpdate then
    { m with
      stocks := m.stocks.enum.map (fun p => (p.2.1, updateStock (rnd p.1) p.2.2))
      lastUpdate := now }
  else m

/-- One OHLC record of `get-history` (the `date` string is modelled by the
day offset `i` used to derive it; `volume` is
`Math.floor(Math.random()*1000000) + 50000`). -/
structure Candle where
  dateOffset : ℕ
  open_ : ℚ
  high : ℚ
  low : ℚ
  close : ℚ
  volume : Int
deriving DecidableEq

/-- The backward-walking generation loop of `get-history`
(`for (let i = 0; i < days; i++)`), consuming four random draws per day. -/
def genHistory (rnd : ℕ → ℚ) : ℕ → ℕ → ℚ → List Candle
  | 0, _, _ => []
  | n+1, i, currentClose =>
    let volatility := currentClose * (2/100)
    let change := (rnd (4*i) - 1/2) * volatility
    let prevClose := currentClose - change
    let o := prevClose
    let c := currentClose
    let hi := max o c + rnd (4*i+1) * volatility * (1/2)
    let lo := min o c - rnd (4*i+2) * volatility * (1/2)
    { dateOffset := i
      open_ := round2 o
      high := round2 hi
      low := round2 lo
      close := round2 c
      volume := ⌊rnd (4*i+3) * 1000000⌋ + 50000 } :: genHistory rnd n (i+1) prevClose

/-- `params.days || 30` (`0` is falsy in JavaScript). -/
def effDays (d : Option Int) : Int :=
  match d with
  | none => 30
  | some k => if k = 0 then 30 else k

/-- Decoded tool parameters.  `qty` stands for the already well-formed
`parseInt(params.qty)`. -/
structure Params where
  symbol : String
  qty : Int
  side : Option String
  type' : Option String
  price : Option ℚ
  days : Option Int
deriving DecidableEq

/-- `params.symbol.toUpperCase()`: uppercase every character (written
directly over the character list so it reduces definitionally). -/
def jsToUpper (s : String) : String := ⟨s.data.map Char.toUpper⟩

/-- JavaScript `a || b` on optional strings (`""` is falsy). -/
def jsOrStr (a b : Option String) : Option String :=
  match a with
  | some s => if s = "" then b else some s
  | none => b

/-- JavaScript `a || b` on optional numbers (`0` is falsy). -/
def jsOrQ (a : Option ℚ) (b : ℚ) : ℚ :=
  match a with
  | some x => if x = 0 then b else x
  | none => b

/-- `marketState.stocks[symbol]?.price || params.price || 0`. -/
def execPrice (m : MarketState) (p : Params) (sym : String) : ℚ :=
  jsOrQ ((lookupStock m sym).map Stock.price) (jsOrQ p.price 0)

/-- JavaScript mutation of the object returned by `holdings.find(...)`:
apply `f` to the first holding whose symbol matches, in place. -/
def updateHolding (sym : String) (f : Holding → Holding) : List Holding → List Holding
  | [] => []
  | h :: t => if h.symbol = sym then f h :: t else h :: updateHolding sym f t

/-- `get-holdings` rows: the holding annotated with current price and P&L. -/
structure HoldingVal where
  symbol : String
  qty : Int
  price : ℚ
  current_price : ℚ
  pnl : ℚ
deriving DecidableEq

/-- The result value of one dispatcher branch. -/
inductive ToolResult where
  | initOk (message : String) (balance : ℚ) (market_status : String)
  | accountInfo (id : String) (balance : ℚ) (currency : String) (status : String)
  | holdingsRes (holdings : List HoldingVal)
  | ordersRes (orders : List Order)
  | jsonError (error : String)
  | historyRes (symbol : String) (history : List Candle)
  | orderRejected (status : String) (reason : String)
  | orderComplete (status : String) (order_id : String) (executed_price : ℚ)
  | quoteRes (symbol : String) (price : ℚ) (trend : String)
      (depthBuyPrice : ℚ) (depthBuyQty : Int) (depthSellPrice : ℚ) (depthSellQty : Int)
  | newsRes (headlines : List News) (sentiment : String)
  | marketStatusRes (status : String) (index_level : ℚ)
      (top_gainer : String) (top_loser : String) (active_symbols : List String)
deriving DecidableEq

/-- The mutable state a dispatcher call touches: the session's account and
the shared market. -/
structure SessionState where
  account : Account
  market : MarketState
deriving DecidableEq

/-- The `place-order` branch of `executeTool`.  `oid` stands for the
`generateId()` draw, `timeStr` for `new Date().toISOString()`. -/
def placeOrder (p : Params) (oid timeStr : String) (st : SessionState) :
    Except String ToolResult × SessionState :=
  let account := st.account
  let sym := (jsToUpper p.symbol)
  let qty := p.qty
  let side := jsOrStr p.side p.type'
  let price := execPrice st.market p sym
  match lookupStock st.market sym with
  | none => (.ok (.orderRejected "REJECTED" "Symbol not found"), st)
  | some _ =>
    let orderValue := (qty : ℚ) * price
    let step : Except ToolResult Account :=
      if side = some "BUY" then
        if account.balance < orderValue then
          .error (.orderRejected "REJECTED" "Insufficient funds")
        else
          let account := { account with balance := account.balance - orderValue }
          match account.holdings.find? (fun h => h.symbol == sym) with
          | some existing =>
            let totalCost := (existing.qty : ℚ) * existing.price + orderValue
            let newQty := existing.qty + qty
            .ok { account with
                  holdings := updateHolding sym
                    (fun h => { h with qty := newQty, price := round2 (totalCost / (newQty : ℚ)) })
                    account.holdings }
          | none =>
            .ok { account with
                  holdings := account.holdings ++ [{ symbol := sym, qty := qty, price := price }] }
      else if side = some "SELL" then
        match account.holdings.find? (fun h => h.symbol == sym) with
        | none => .error (.orderRejected "REJECTED" "Insufficient holdings")
        | some existing =>
          if existing.qty < qty then
            .error (.orderRejected "REJECTED" "Insufficient holdings")
          else
            let account := { account with balance := account.balance + orderValue }
            let holdings := updateHolding sym (fun h => { h with qty := h.qty - qty }) account.holdings
            let holdings :=
              if existing.qty - qty = 0 then holdings.filter (fun h => h.symbol != sym)
              else holdings
            .ok { account with holdings := holdings }
      else .ok account
    match step with
    | .error r => (.ok r, st)
    | .ok account =>
      let order : Order :=
        { id := oid, symbol := sym, qty := qty, side := side, price := price, time := timeStr }
      (.ok (.orderComplete "COMPLETE" oid price),
       { st with account := { account with orders := account.orders ++ [order] } })

/-- The `switch (toolName)` body of `executeTool`, after the market refresh. -/
def toolSwitch (toolName : String) (p : Params) (id : String)
    (rnd : ℕ → ℚ) (oid timeStr : String) (st : SessionState) :
    Except String ToolResult × SessionState :=
  let account := st.account
  let market := st.market
  if toolName = "init" then
    (.ok (.initOk "Account reset successful. Market is open." 100000 "OPEN"),
     { st with account := createAccount })
  else if toolName = "get-account" then
    (.ok (.accountInfo id account.balance "INR" "ACTIVE"), st)
  else if toolName = "get-holdings" then
    let holdingsWithVal := account.holdings.map (fun h =>
      let currentPrice := jsOrQ ((lookupStock market h.symbol).map Stock.price) h.price
      { symbol := h.symbol, qty := h.qty, price := h.price
        current_price := currentPrice
        pnl := round2 ((currentPrice - h.price) * (h.qty : ℚ)) : HoldingVal })
    (.ok (.holdingsRes holdingsWithVal), st)
  else if toolName = "get-orders" then
    (.ok (.ordersRes account.orders), st)
  else if toolName = "get-history" then
    let histSymbol := (jsToUpper p.symbol)
    match lookupStock market histSymbol with
    | none => (.ok (.jsonError "Symbol not found"), st)
    | some stock =>
      let days := effDays p.days
      (.ok (.historyRes histSymbol ((genHistory rnd days.toNat 0 stock.price).reverse)), st)
  else if toolName = "place-order" then
    placeOrder p oid timeStr st
  else if toolName = "get-quote" then
    match lookupStock market (jsToUpper p.symbol) with
    | none => (.ok (.jsonError "Symbol not found"), st)
    | some stock =>
      (.ok (.quoteRes (jsToUpper p.symbol) stock.price stock.trend
        (round2 (stock.price * (999/1000))) 100
        (round2 (stock.price * (1001/1000))) 150), st)
  else if toolName = "get-market-news" then
    (.ok (.newsRes market.news "MIXED"), st)
  else if toolName = "get-market-status" then
    let sorted := market.stocks.mergeSort (fun a b => b.2.price ≤ a.2.price)
    match sorted.head?, sorted.getLast? with
    | some g, some l =>
      (.ok (.marketStatusRes "OPEN" (18500 + rnd 0 * 100) g.1 l.1
        (market.stocks.map Prod.fst)), st)
    | _, _ => (.error "Cannot read properties of undefined (reading '0')", st)
  else
    (.error ("Unknown tool: " ++ toolName), st)

/-- `executeTool(toolName, params, sessionId)`: market refresh, session
resolution, then the tool switch.  A thrown `Unknown tool` error is the
`.error` value; mutations made before the throw (the market refresh)
persist, as in the source. -/
def runTool (toolName : String) (p : Params) (sessionId : Option String)
    (now : Int) (rndM rnd : ℕ → ℚ) (oid timeStr : String)
    (st : SessionState) : Except String ToolResult × SessionState :=
  let st := { st with market := updateMarket now rndM st.market }
  let id :=
    match sessionId with
    | none => "demo-session"
    | some s => if s = "" then "demo-session" else s
  toolSwitch toolName p id rnd oid timeStr st

/-- A decoded JSON-RPC request (`params.name`/`params.arguments` for
`tools/call`, `params.uri` for `resources/read`). -/
structure RpcRequest where
  method : String
  name : String
  arguments : Params
  uri : String

/-- The JSON-RPC response payload: a result variant or an error object. -/
inductive RpcOut where
  | initializeRes (protocolVersion serverName serverVersion : String)
  | emptyRes
  | toolsListRes (toolNames : List String)
  | resourcesListRes (uris : List String)
  | resourceReadRes (uri mimeType text : String)
  | promptsListRes
  | toolCallRes (result : ToolResult) (isError : Bool)
  | rpcError (code : Int) (message : String)
deriving DecidableEq

/-- The names in the static `tools/list` catalogue, which coincide with the
dispatcher's recognized tool names. -/
def toolCatalogueNames : List String :=
  [ "init", "get-account", "get-holdings", "get-orders", "get-history"
  , "place-order", "get-quote", "get-market-news", "get-market-status" ]

/-- The JSON-RPC methods the handler recognizes, in source order. -/
def recognizedMethods : List String :=
  [ "initialize", "notifications/initialized", "ping", "tools/list"
  , "resources/list", "resources/read", "prompts/list", "tools/call" ]

/-- The JSON-RPC branch of `handler`: method dispatch; `tools/call` invokes
the dispatcher with the fixed `demo-session` and converts a thrown error
into a `-32603` error object; an unrecognized method yields `-32601`. -/
def handleRpc (req : RpcRequest) (now : Int) (rndM rnd : ℕ → ℚ)
    (oid timeStr : String) (st : SessionState) : RpcOut × SessionState :=
  if req.method = "initialize" then
    (.initializeRes "2024-11-05" "zerodha-mock" "1.0.0", st)
  else if req.method = "notifications/initialized" then (.emptyRes, st)
  else if req.method = "ping" then (.emptyRes, st)
  else if req.method = "tools/list" then (.toolsListRes toolCatalogueNames, st)
  else if req.method = "resources/list" then (.resourcesListRes ["market://alerts"], st)
  else if req.method = "resources/read" then
    if req.uri = "market://alerts" then
      let alerts := String.intercalate "\n" (st.market.news.map (fun n =>
        "[" ++ n.sentiment ++ "] " ++ n.symbol ++ ": " ++ n.headline))
      (.resourceReadRes "market://alerts" "text/plain"
        ("=== MARKET ALERTS ===\n" ++ alerts ++ "\n====================="), st)
    else (.rpcError (-32602) "Resource not found", st)
  else if req.method = "prompts/list" then (.promptsListRes, st)
  else if req.method = "tools/call" then
    match runTool req.name req.arguments (some "demo-session") now rndM rnd oid timeStr st with
    | (.ok r, st') => (.toolCallRes r false, st')
    | (.error msg, st') => (.rpcError (-32603) msg, st')
  else (.rpcError (-32601) "Method not found", st)

/-! ## Concrete scenarios (closed inputs used by witnesses and
counterexamples) -/

/-- A `place-order` parameter record with market price execution. -/
def orderParams (sym : String) (q : Int) (sd : Option String) : Params :=
  { symbol := sym, qty := q, side := sd, type' := none, price := none, days := none }

/-- A `get-history` parameter record. -/
def historyParams (sym : String) (d : Option Int) : Params :=
  { symbol := sym, qty := 0, side := none, type' := none, price := none, days := d }

/-- A constant random stream (every draw `0.5`, i.e. zero price move). -/
def rndHalf : ℕ → ℚ := fun _ => 1/2

/-- A random stream that moves only HDFC (table index 3) and leaves every
other instrument's price unchanged. -/
def rndHDFCMove (r : ℚ) : ℕ → ℚ := fun i => if i = 3 then r else 1/2

/-- A fresh session against the module-load market, at time 0. -/
def st0 : SessionState := { account := createAccount, market := initialMarketState 0 }

/-- The market after the single refresh at `t = 6000` under
`rndHDFCMove (123/500)`: every price is unchanged (move `0`) except HDFC,
moved by `(123/500 - 1/2) * 10 = -2.54` to `1677.46`; every trend comes
from the sign of its move. -/
def cexMkt : MarketState :=
  { stocks :=
      [ ("TCS", { price := 3450, trend := "DOWN" })
      , ("RELIANCE", { price := 2850, trend := "DOWN" })
      , ("INFY", { price := 1520, trend := "DOWN" })
      , ("HDFC", { price := 167746/100, trend := "DOWN" })
      , ("WIPRO", { price := 460, trend := "DOWN" })
      , ("TATAMOTORS", { price := 980, trend := "DOWN" }) ]
    lastUpdate := 6000
    news := initialNews }

/-- Account after BUY 5 HDFC @ 1680.00 on the fresh account. -/
def cexAcct1 : Account :=
  { balance := 91600
    holdings :=
      [ { symbol := "TCS", qty := 10, price := 3400 }
      , { symbol := "RELIANCE", qty := 5, price := 2800 }
      , { symbol := "INFY", qty := 15, price := 1500 }
      , { symbol := "HDFC", qty := 5, price := 1680 } ]
    orders :=
      [ { id := "o1", symbol := "HDFC", qty := 5, side := some "BUY", price := 1680, time := "t1" } ] }

/-- Account after the further BUY 2 HDFC @ 1677.46:
cost basis `round2 ((5*1680 + 2*1677.46) / 7) = 1679.27`. -/
def cexAcct2 : Account :=
  { balance := 2206127/25
    holdings :=
      [ { symbol := "TCS", qty := 10, price := 3400 }
      , { symbol := "RELIANCE", qty := 5, price := 2800 }
      , { symbol := "INFY", qty := 15, price := 1500 }
      , { symbol := "HDFC", qty := 7, price := 167927/100 } ]
    orders :=
      [ { id := "o1", symbol := "HDFC", qty := 5, side := some "BUY", price := 1680, time := "t1" }
      , { id := "o2", symbol := "HDFC", qty := 2, side := some "BUY", price := 167746/100, time := "t2" } ] }

/-- Account after the further BUY 1 HDFC @ 1677.46:
cost basis `round2 ((7*1679.27 + 1677.46) / 8) = 1679.04`. -/
def cexAcct3 : Account :=
  { balance := 4328381/50
    holdings :=
      [ { symbol := "TCS", qty := 10, price := 3400 }
      , { symbol := "RELIANCE", qty := 5, price := 2800 }
      , { symbol := "INFY", qty := 15, price := 1500 }
      , { symbol := "HDFC", qty := 8, price := 167904/100 } ]
    orders :=
      [ { id := "o1", symbol := "HDFC", qty := 5, side := some "BUY", price := 1680, time := "t1" }
      , { id := "o2", symbol := "HDFC", qty := 2, side := some "BUY", price := 167746/100, time := "t2" }
      , { id := "o3", symbol := "HDFC", qty := 1, side := some "BUY", price := 167746/100, time := "t3" } ] }

/-- Account after the further BUY 1 HDFC @ 1677.46:
cost basis `round2 ((8*1679.04 + 1677.46) / 9) = 1678.86`, while the
quantity-weighted mean of the four lots is
`(5*1680 + 4*1677.46) / 9 = 1678.8711...`, which rounds to `1678.87`. -/
def cexAcct4 : Account :=
  { balance := 2122254/25
    holdings :=
      [ { symbol := "TCS", qty := 10, price := 3400 }
      , { symbol := "RELIANCE", qty := 5, price := 2800 }
      , { symbol := "INFY", qty := 15, price := 1500 }
      , { symbol := "HDFC", qty := 9, price := 167886/100 } ]
    orders :=
      [ { id := "o1", symbol := "HDFC", qty := 5, side := some "BUY", price := 1680, time := "t1" }
      , { id := "o2", symbol := "HDFC", qty := 2, side := some "BUY", price := 167746/100, time := "t2" }
      , { id := "o3", symbol := "HDFC", qty := 1, side := some "BUY", price := 167746/100, time := "t3" }
      , { id := "o4", symbol := "HDFC", qty := 1, side := some "BUY", price := 167746/100, time := "t4" } ] }

/-! ## Helper lemmas -/

theorem runTool_place_order_eq (p : Params) (sid : Option String) (now : Int)
    (rndM rnd : ℕ → ℚ) (oid timeStr : String) (st : SessionState) :
    runTool "place-order" p sid now rndM rnd oid timeStr st =
      placeOrder p oid timeStr { st with market := updateMarket now rndM st.market } := by
  rfl

theorem find?_updateHolding (l : List Holding) (sym : String) (f : Holding → Holding)
    (e : Holding) (hf : l.find? (fun h => h.symbol == sym) = some e)
    (hpres : (f e).symbol = e.symbol) :
    (updateHolding sym f l).find? (fun h => h.symbol == sym) = some (f e) := by
  induction l with
  | nil => simp [List.find?] at hf
  | cons a t ih =>
    by_cases ha : a.symbol = sym
    · have hae : a = e := by
        rw [List.find?_cons_of_pos _ (by simp [ha])] at hf
        exact Option.some.inj hf
      simp only [updateHolding, if_pos ha]
      subst hae
      exact List.find?_cons_of_pos _ (by simp [hpres, ha])
    · have hf' : t.find? (fun h => h.symbol == sym) = some e := by
        rw [List.find?_cons_of_neg _ (by simp [ha])] at hf
        exact hf
      simp only [updateHolding, if_neg ha]
      rw [List.find?_cons_of_neg _ (by simp [ha])]
      exact ih hf'

theorem mem_updateHolding_of_find? (l : List Holding) (sym : String) (f : Holding → Holding)
    (e : Holding) (hf : l.find? (fun h => h.symbol == sym) = some e) :
    ∀ h' ∈ updateHolding sym f l, h' ∈ l ∨ h' = f e := by
  induction l with
  | nil => intro h' hh'; simp [updateHolding] at hh'
  | cons a t ih =>
    intro h' hh'
    by_cases ha : a.symbol = sym
    · have hae : a = e := by
        rw [List.find?_cons_of_pos _ (by simp [ha])] at hf
        exact Option.some.inj hf
      simp only [updateHolding, if_pos ha] at hh'
      rcases List.mem_cons.mp hh' with h1 | h2
      · right; rw [h1, hae]
      · left; exact List.mem_cons_of_mem _ h2
    · have hf' : t.find? (fun h => h.symbol == sym) = some e := by
        rw [List.find?_cons_of_neg _ (by simp [ha])] at hf
        exact hf
      simp only [updateHolding, if_neg ha] at hh'
      rcases List.mem_cons.mp hh' with h1 | h2
      · left; rw [h1]; exact List.mem_cons_self _ _
      · rcases ih hf' h' h2 with h3 | h4
        · left; exact List.mem_cons_of_mem _ h3
        · right; exact h4

theorem cex_mkt_eq : updateMarket 6000 (rndHDFCMove (123/500)) (initialMarketState 0) = cexMkt := by
  simp only [updateMarket, initialMarketState, initialStocks, updateStock, rndHDFCMove,
    List.enum, List.enumFrom, List.map, cexMkt, round2]
  norm_num

theorem placeOrder_buy_found (p : Params) (oid t : String) (st : SessionState)
    (sym : String) (price : ℚ) (stock : Stock) (e : Holding)
    (hsymEq : jsToUpper p.symbol = sym)
    (hside : jsOrStr p.side p.type' = some "BUY")
    (hsym : lookupStock st.market sym = some stock)
    (hprice : execPrice st.market p sym = price)
    (hfind : st.account.holdings.find? (fun h => h.symbol == sym) = some e)
    (hfunds : ¬ st.account.balance < (p.qty : ℚ) * price) :
    placeOrder p oid t st =
      (.ok (.orderComplete "COMPLETE" oid price),
       { st with account :=
          { balance := st.account.balance - (p.qty : ℚ) * price
            holdings := updateHolding sym
              (fun h => { h with
                qty := e.qty + p.qty,
                price := round2 (((e.qty : ℚ) * e.price + (p.qty : ℚ) * price) /
                  ((e.qty + p.qty : ℤ) : ℚ)) })
              st.account.holdings
            orders := st.account.orders ++
              [{ id := oid, symbol := sym, qty := p.qty, side := jsOrStr p.side p.type',
                  price := price, time := t }] } }) := by
  subst hsymEq
  subst hprice
  unfold placeOrder
  dsimp only
  rw [hsym]
  dsimp only
  rw [if_pos hside, if_neg hfunds, hfind]

theorem placeOrder_buy_new (p : Params) (oid t : String) (st : SessionState)
    (sym : String) (price : ℚ) (stock : Stock)
    (hsymEq : jsToUpper p.symbol = sym)
    (hside : jsOrStr p.side p.type' = some "BUY")
    (hsym : lookupStock st.market sym = some stock)
    (hprice : execPrice st.market p sym = price)
    (hfind : st.account.holdings.find? (fun h => h.symbol == sym) = none)
    (hfunds : ¬ st.account.balance < (p.qty : ℚ) * price) :
    placeOrder p oid t st =
      (.ok (.orderComplete "COMPLETE" oid price),
       { st with account :=
          { balance := st.account.balance - (p.qty : ℚ) * price
            holdings := st.account.holdings ++ [{ symbol := sym, qty := p.qty, price := price }]
            orders := st.account.orders ++
              [{ id := oid, symbol := sym, qty := p.qty, side := jsOrStr p.side p.type',
                  price := price, time := t }] } }) := by
  subst hsymEq
  subst hprice
  unfold placeOrder
  dsimp only
  rw [hsym]
  dsimp only
  rw [if_pos hside, if_neg hfunds, hfind]

theorem cex_step1 :
    runTool "place-order" (orderParams "HDFC" 5 (some "BUY")) none 0 rndHalf rndHalf
      "o1" "t1" st0 =
      (.ok (.orderComplete "COMPLETE" "o1" 1680),
       { account := cexAcct1, market := initialMarketState 0 }) := by
  rw [runTool_place_order_eq]
  dsimp only [st0]
  rw [show updateMarket 0 rndHalf (initialMarketState 0) = initialMarketState 0 from rfl]
  rw [placeOrder_buy_new (orderParams "HDFC" 5 (some "BUY")) "o1" "t1"
    { account := createAccount, market := initialMarketState 0 } "HDFC" 1680
    { price := 1680, trend := "UP" } rfl (by decide)
    (by simp [lookupStock, initialMarketState, initialStocks])
    (by simp [execPrice, lookupStock, initialMarketState, initialStocks, jsOrQ])
    (by simp [createAccount])
    (by simp [createAccount, orderParams]; norm_num)]
  simp [createAccount, cexAcct1, orderParams, jsOrStr]
  norm_num

theorem cex_step2 :
    runTool "place-order" (orderParams "HDFC" 2 (some "BUY")) none 6000
      (rndHDFCMove (123/500)) rndHalf "o2" "t2"
      { account := cexAcct1, market := initialMarketState 0 } =
      (.ok (.orderComplete "COMPLETE" "o2" (167746/100)),
       { account := cexAcct2, market := cexMkt }) := by
  rw [runTool_place_order_eq]
  dsimp only
  rw [cex_mkt_eq]
  rw [placeOrder_buy_found (orderParams "HDFC" 2 (some "BUY")) "o2" "t2"
    { account := cexAcct1, market := cexMkt } "HDFC" (167746/100)
    { price := 167746/100, trend := "DOWN" } { symbol := "HDFC", qty := 5, price := 1680 }
    rfl (by decide)
    (by simp [lookupStock, cexMkt])
    (by simp [execPrice, lookupStock, cexMkt, jsOrQ])
    (by simp [cexAcct1])
    (by norm_num [cexAcct1, orderParams])]
  simp [cexAcct1, cexAcct2, orderParams, jsOrStr, updateHolding, round2]
  norm_num

theorem cex_step3 :
    runTool "place-order" (orderParams "HDFC" 1 (some "BUY")) none 6100
      rndHalf rndHalf "o3" "t3" { account := cexAcct2, market := cexMkt } =
      (.ok (.orderComplete "COMPLETE" "o3" (167746/100)),
       { account := cexAcct3, market := cexMkt }) := by
  rw [runTool_place_order_eq]
  dsimp only
  rw [show updateMarket 6100 rndHalf cexMkt = cexMkt from rfl]
  rw [placeOrder_buy_found (orderParams "HDFC" 1 (some "BUY")) "o3" "t3"
    { account := cexAcct2, market := cexMkt } "HDFC" (167746/100)
    { price := 167746/100, trend := "DOWN" } { symbol := "HDFC", qty := 7, price := 167927/100 }
    rfl (by decide)
    (by simp [lookupStock, cexMkt])
    (by simp [execPrice, lookupStock, cexMkt, jsOrQ])
    (by simp [cexAcct2])
    (by norm_num [cexAcct2, orderParams])]
  simp [cexAcct2, cexAcct3, orderParams, jsOrStr, updateHolding, round2]
  norm_num

theorem cex_step4 :
    runTool "place-order" (orderParams "HDFC" 1 (some "BUY")) none 6200
      rndHalf rndHalf "o4" "t4" { account := cexAcct3, market := cexMkt } =
      (.ok (.orderComplete "COMPLETE" "o4" (167746/100)),
       { account := cexAcct4, market := cexMkt }) := by
  rw [runTool_place_order_eq]
  dsimp only
  rw [show updateMarket 6200 rndHalf cexMkt = cexMkt from rfl]
  rw [placeOrder_buy_found (orderParams "HDFC" 1 (some "BUY")) "o4" "t4"
    { account := cexAcct3, market := cexMkt } "HDFC" (167746/100)
    { price := 167746/100, trend := "DOWN" } { symbol := "HDFC", qty := 8, price := 167904/100 }
    rfl (by decide)
    (by simp [lookupStock, cexMkt])
    (by simp [execPrice, lookupStock, cexMkt, jsOrQ])
    (by simp [cexAcct3])
    (by norm_num [cexAcct3, orderParams])]
  simp [cexAcct3, cexAcct4, orderParams, jsOrStr, updateHolding, round2]
  norm_num

theorem genHistory_length (rnd : ℕ → ℚ) (n : ℕ) : ∀ (i : ℕ) (c : ℚ),
    (genHistory rnd n i c).length = n := by
  induction n with
  | zero => intro i c; rfl
  | succ m ih => intro i c; simp only [genHistory, List.length_cons, ih]

theorem genHistory_head_close (rnd : ℕ → ℚ) (n i : ℕ) (c : ℚ) (h : 0 < n) :
    ((genHistory rnd n i c).head?).map Candle.close = some (round2 c) := by
  cases n with
  | zero => exact (Nat.lt_irrefl 0 h).elim
  | succ m => rfl

theorem genHistory_get_zero_close (rnd : ℕ → ℚ) (n i : ℕ) (c : ℚ) (h : 0 < n) :
    ((genHistory rnd n i c)[0]?).map Candle.close = some (round2 c) := by
  cases n with
  | zero => exact (Nat.lt_irrefl 0 h).elim
  | succ m =>
    simp only [genHistory, List.getElem?_cons_zero, Option.map_some]
    rfl

theorem genHistory_chain (rnd : ℕ → ℚ) : ∀ (n i : ℕ) (c : ℚ) (j : ℕ), j + 1 < n →
    ((genHistory rnd n i c)[j]?).map Candle.open_ =
      ((genHistory rnd n i c)[j+1]?).map Candle.close := by
  intro n
  induction n with
  | zero => intro i c j hj; exact absurd hj (by omega)
  | succ m ih =>
    intro i c j hj
    cases j with
    | zero =>
      have hm : 0 < m := by omega
      simp only [genHistory]
      rw [List.getElem?_cons_zero, List.getElem?_cons_succ]
      rw [genHistory_get_zero_close rnd m (i+1) _ hm]
      rfl
    | succ k =>
      simp only [genHistory]
      rw [List.getElem?_cons_succ, List.getElem?_cons_succ]
      exact ih (i+1) _ k (by omega)

theorem genHistory_chain_ascending (rnd : ℕ → ℚ) (n : ℕ) (c : ℚ) (k : ℕ)
    (hk : k + 1 < n) :
    (((genHistory rnd n 0 c).reverse)[k+1]?).map Candle.open_ =
      (((genHistory rnd n 0 c).reverse)[k]?).map Candle.close := by
  have hlen : (genHistory rnd n 0 c).length = n := genHistory_length rnd n 0 c
  rw [List.getElem?_reverse (by rw [hlen]; omega), List.getElem?_reverse (by rw [hlen]; omega),
    hlen]
  have h3 := genHistory_chain rnd n 0 c (n - 1 - (k+1)) (by omega)
  rw [show n - 1 - (k+1) + 1 = n - 1 - k from by omega] at h3
  exact h3

theorem round2_mono : Monotone round2 := by
  intro a b hab
  unfold round2
  have h1 : a * 100 + 1/2 ≤ b * 100 + 1/2 := by linarith
  have h2 : (⌊a * 100 + 1/2⌋ : ℤ) ≤ ⌊b * 100 + 1/2⌋ := Int.floor_le_floor h1
  have h3 : ((⌊a * 100 + 1/2⌋ : ℤ) : ℚ) ≤ ((⌊b * 100 + 1/2⌋ : ℤ) : ℚ) := by exact_mod_cast h2
  linarith

theorem genHistory_high_low (rnd : ℕ → ℚ) (hrnd : ∀ k, 0 ≤ rnd k ∧ rnd k ≤ 1) :
    ∀ (n i : ℕ) (c : ℚ), 0 ≤ c → ∀ cd ∈ genHistory rnd n i c,
      max cd.open_ cd.close ≤ cd.high ∧ cd.low ≤ min cd.open_ cd.close := by
  intro n
  induction n with
  | zero => intro i c hc cd hcd; simp [genHistory] at hcd
  | succ m ih =>
    intro i c hc cd hcd
    simp only [genHistory, List.mem_cons] at hcd
    have hvol : (0 : ℚ) ≤ c * (2/100) := by positivity
    rcases hcd with rfl | hcd
    · dsimp only
      constructor
      · rw [← round2_mono.map_max]
        exact round2_mono (by nlinarith [(hrnd (4*i+1)).1])
      · rw [← round2_mono.map_min]
        exact round2_mono (by nlinarith [(hrnd (4*i+2)).1])
    · refine ih (i+1) _ ?_ cd hcd
      nlinarith [(hrnd (4*i)).1, (hrnd (4*i)).2]

theorem genHistory_offset_lb (rnd : ℕ → ℚ) (n : ℕ) : ∀ (i : ℕ) (c : ℚ),
    ∀ cd ∈ genHistory rnd n i c, i ≤ cd.dateOffset := by
  induction n with
  | zero => intro i c cd hcd; simp [genHistory] at hcd
  | succ m ih =>
    intro i c cd hcd
    simp only [genHistory, List.mem_cons] at hcd
    rcases hcd with rfl | hcd
    · exact le_refl i
    · exact le_trans (Nat.le_succ i) (ih (i+1) _ cd hcd)

theorem genHistory_pairwise_offset (rnd : ℕ → ℚ) (n : ℕ) : ∀ (i : ℕ) (c : ℚ),
    (genHistory rnd n i c).Pairwise (fun a b => a.dateOffset < b.dateOffset) := by
  induction n with
  | zero => intro i c; simp [genHistory]
  | succ m ih =>
    intro i c
    simp only [genHistory, List.pairwise_cons]
    constructor
    · intro cd hcd
      have h1 := genHistory_offset_lb rnd m (i+1) _ cd hcd
      omega
    · exact ih (i+1) _

theorem runTool_get_history_eq (p : Params) (sid : Option String) (now : Int)
    (rndM rnd : ℕ → ℚ) (oid timeStr : String) (st : SessionState) :
    runTool "get-history" p sid now rndM rnd oid timeStr st =
      (match lookupStock (updateMarket now rndM st.market) (jsToUpper p.symbol) with
       | none => (.ok (.jsonError "Symbol not found"),
           { st with market := updateMarket now rndM st.market })
       | some stock =>
         (.ok (.historyRes (jsToUpper p.symbol)
            ((genHistory rnd (effDays p.days).toNat 0 stock.price).reverse)),
          { st with market := updateMarket now rndM st.market })) := by
  rfl

/-! ## Claim theorems -/

/-- C7: for every session and prior account state, `init` unconditionally
replaces the session's account with a freshly seeded one: balance 100000,
exactly the three preset holdings, and an empty orders list. -/
theorem init_resets_account (p : Params) (sid : Option String) (now : Int)
    (rndM rnd : ℕ → ℚ) (oid timeStr : String) (st : SessionState) :
    runTool "init" p sid now rndM rnd oid timeStr st =
      (.ok (.initOk "Account reset successful. Market is open." 100000 "OPEN"),
       { account := createAccount, market := updateMarket now rndM st.market }) ∧
    createAccount.balance = 100000 ∧
    createAccount.holdings =
      [ { symbol := "TCS", qty := 10, price := 3400 }
      , { symbol := "RELIANCE", qty := 5, price := 2800 }
      , { symbol := "INFY", qty := 15, price := 1500 } ] ∧
    createAccount.orders = [] := by
  refine ⟨rfl, rfl, rfl, rfl⟩

/-- C1: a BUY on a known symbol whose order value exceeds the balance is
rejected with reason `Insufficient funds`, leaving the account (balance,
holdings, orders) exactly unchanged; and no BUY ever makes a nonnegative
balance negative. -/
theorem buy_insufficient_funds_rejected (p : Params) (sid : Option String) (now : Int)
    (rndM rnd : ℕ → ℚ) (oid timeStr : String) (st : SessionState) (stock : Stock)
    (hside : jsOrStr p.side p.type' = some "BUY")
    (hsym : lookupStock (updateMarket now rndM st.market) (jsToUpper p.symbol) = some stock) :
    (st.account.balance <
        (p.qty : ℚ) * execPrice (updateMarket now rndM st.market) p (jsToUpper p.symbol) →
      runTool "place-order" p sid now rndM rnd oid timeStr st =
        (.ok (.orderRejected "REJECTED" "Insufficient funds"),
         { st with market := updateMarket now rndM st.market })) ∧
    (0 ≤ st.account.balance →
      0 ≤ (runTool "place-order" p sid now rndM rnd oid timeStr st).2.account.balance) := by
  rw [runTool_place_order_eq]
  constructor
  · intro hover
    unfold placeOrder
    simp only [hsym, hside, if_pos hover, reduceIte]
  · intro h0
    unfold placeOrder
    simp only [hsym, hside, reduceIte]
    by_cases hover :
        st.account.balance <
          (p.qty : ℚ) * execPrice (updateMarket now rndM st.market) p (jsToUpper p.symbol)
    · simp only [if_pos hover]
      exact h0
    · simp only [if_neg hover]
      have hle :
          (p.qty : ℚ) * execPrice (updateMarket now rndM st.market) p (jsToUpper p.symbol) ≤
            st.account.balance := le_of_not_lt hover
      cases hfind : st.account.holdings.find? (fun h => h.symbol == (jsToUpper p.symbol)) with
      | none => simpa using sub_nonneg.mpr hle
      | some existing => simpa [hfind] using sub_nonneg.mpr hle

/-- C9: a `place-order` call on a known symbol whose side is neither `BUY`
nor `SELL` is not rejected: it completes, appends an order record, and
leaves balance and holdings entirely unchanged. -/
theorem other_side_completes_without_mutation (p : Params) (sid : Option String)
    (now : Int) (rndM rnd : ℕ → ℚ) (oid timeStr : String) (st : SessionState) (stock : Stock)
    (hsym : lookupStock (updateMarket now rndM st.market) (jsToUpper p.symbol) = some stock)
    (hbuy : jsOrStr p.side p.type' ≠ some "BUY")
    (hsell : jsOrStr p.side p.type' ≠ some "SELL") :
    runTool "place-order" p sid now rndM rnd oid timeStr st =
      (.ok (.orderComplete "COMPLETE" oid
         (execPrice (updateMarket now rndM st.market) p (jsToUpper p.symbol))),
       { account :=
           { st.account with
             orders := st.account.orders ++
               [{ id := oid, symbol := (jsToUpper p.symbol), qty := p.qty
                , side := jsOrStr p.side p.type'
                , price := execPrice (updateMarket now rndM st.market) p (jsToUpper p.symbol)
                , time := timeStr }] }
         market := updateMarket now rndM st.market }) := by
  rw [runTool_place_order_eq]
  unfold placeOrder
  simp only [hsym, if_neg hbuy, if_neg hsell]

/-- C10: whenever `place-order` returns status `REJECTED`, the session's
account — in particular its orders list — is exactly unchanged; no order
record is appended for a rejected order. -/
theorem rejected_order_leaves_account_unchanged (p : Params) (sid : Option String)
    (now : Int) (rndM rnd : ℕ → ℚ) (oid timeStr : String) (st st' : SessionState)
    (status reason : String)
    (h : runTool "place-order" p sid now rndM rnd oid timeStr st =
         (.ok (.orderRejected status reason), st')) :
    st'.account = st.account ∧ st'.account.orders = st.account.orders := by
  rw [runTool_place_order_eq] at h
  unfold placeOrder at h
  dsimp only at h
  have hacc : st'.account = st.account := by
    cases hl : lookupStock (updateMarket now rndM st.market) (jsToUpper p.symbol) with
    | none =>
      rw [hl] at h
      cases h
      rfl
    | some s =>
      rw [hl] at h
      by_cases hb : jsOrStr p.side p.type' = some "BUY"
      · rw [if_pos hb] at h
        by_cases hov : st.account.balance <
            (p.qty : ℚ) * execPrice (updateMarket now rndM st.market) p (jsToUpper p.symbol)
        · rw [if_pos hov] at h
          cases h
          rfl
        · rw [if_neg hov] at h
          cases hfind : st.account.holdings.find? (fun h => h.symbol == (jsToUpper p.symbol)) with
          | none => rw [hfind] at h; cases h
          | some existing => rw [hfind] at h; cases h
      · rw [if_neg hb] at h
        by_cases hs : jsOrStr p.side p.type' = some "SELL"
        · rw [if_pos hs] at h
          cases hfind : st.account.holdings.find? (fun h => h.symbol == (jsToUpper p.symbol)) with
          | none =>
            rw [hfind] at h
            cases h
            rfl
          | some existing =>
            rw [hfind] at h
            dsimp only at h
            by_cases hq : existing.qty < p.qty
            · rw [if_pos hq] at h
              cases h
              rfl
            · rw [if_neg hq] at h
              cases h
        · rw [if_neg hs] at h
          cases h
  exact ⟨hacc, by rw [hacc]⟩

/-- C1 witness: a BUY of 999 TCS (order value 3446550) against the fresh
balance 100000 is rejected with `Insufficient funds` and the account is
unchanged. -/
theorem buy_insufficient_funds_rejected_witness :
    runTool "place-order" (orderParams "TCS" 999 (some "BUY")) none 0 rndHalf rndHalf
        "o" "t" st0 =
      (.ok (.orderRejected "REJECTED" "Insufficient funds"),
       { st0 with market := updateMarket 0 rndHalf st0.market }) :=
  (buy_insufficient_funds_rejected (orderParams "TCS" 999 (some "BUY")) none 0 rndHalf rndHalf
    "o" "t" st0 { price := 3450, trend := "UP" } rfl rfl).1 (by with_unfolding_all decide)

/-- C9 witness: a `place-order` with side `HOLD` on TCS completes and only
appends the order record. -/
theorem other_side_completes_without_mutation_witness :
    runTool "place-order" (orderParams "TCS" 1 (some "HOLD")) none 0 rndHalf rndHalf
        "o" "t" st0 =
      (.ok (.orderComplete "COMPLETE" "o"
         (execPrice (updateMarket 0 rndHalf st0.market)
           (orderParams "TCS" 1 (some "HOLD")) "TCS")),
       { account :=
           { st0.account with
             orders := st0.account.orders ++
               [{ id := "o", symbol := "TCS", qty := 1, side := some "HOLD"
                , price := execPrice (updateMarket 0 rndHalf st0.market)
                    (orderParams "TCS" 1 (some "HOLD")) "TCS"
                , time := "t" }] }
         market := updateMarket 0 rndHalf st0.market }) :=
  other_side_completes_without_mutation (orderParams "TCS" 1 (some "HOLD")) none 0
    rndHalf rndHalf "o" "t" st0 { price := 3450, trend := "UP" } rfl
    (by decide) (by decide)

/-- C10 witness: a SELL of 999 TCS is rejected and the account, in
particular the orders list, is unchanged. -/
theorem rejected_order_leaves_account_unchanged_witness :
    ({ st0 with market := updateMarket 0 rndHalf st0.market } : SessionState).account
        = st0.account ∧
    ({ st0 with market := updateMarket 0 rndHalf st0.market } : SessionState).account.orders
        = st0.account.orders :=
  rejected_order_leaves_account_unchanged (orderParams "TCS" 999 (some "SELL")) none 0
    rndHalf rndHalf "o" "t" st0 _ "REJECTED" "Insufficient holdings"
    (by with_unfolding_all rfl)

/-- C8: a tool name outside the dispatcher's recognized set makes the
dispatcher fail with an error message carrying the tool name; a
`tools/call` naming such a tool yields a JSON-RPC error with code -32603;
a method outside the recognized set yields code -32601,
`Method not found`. -/
theorem unknown_tool_and_method_errors (t : String) (p : Params) (sid : Option String)
    (now : Int) (rndM rnd : ℕ → ℚ) (oid timeStr : String) (st : SessionState)
    (req : RpcRequest)
    (ht : t ∉ toolCatalogueNames)
    (hm : req.method ∉ recognizedMethods) :
    (runTool t p sid now rndM rnd oid timeStr st).1 = .error ("Unknown tool: " ++ t) ∧
    (handleRpc { method := "tools/call", name := t, arguments := p, uri := "" }
        now rndM rnd oid timeStr st).1 = .rpcError (-32603) ("Unknown tool: " ++ t) ∧
    (handleRpc req now rndM rnd oid timeStr st).1 = .rpcError (-32601) "Method not found" := by
  simp only [toolCatalogueNames, List.mem_cons, List.not_mem_nil, or_false, not_or] at ht
  simp only [recognizedMethods, List.mem_cons, List.not_mem_nil, or_false, not_or] at hm
  obtain ⟨h1, h2, h3, h4, h5, h6, h7, h8, h9⟩ := ht
  obtain ⟨m1, m2, m3, m4, m5, m6, m7, m8⟩ := hm
  have hrun : ∀ sid', runTool t p sid' now rndM rnd oid timeStr st =
      (.error ("Unknown tool: " ++ t),
       { st with market := updateMarket now rndM st.market }) := by
    intro sid'
    unfold runTool toolSwitch
    simp only [if_neg h1, if_neg h2, if_neg h3, if_neg h4, if_neg h5, if_neg h6,
      if_neg h7, if_neg h8, if_neg h9]
  refine ⟨by rw [hrun sid], ?_, ?_⟩
  · unfold handleRpc
    dsimp only
    rw [if_neg (by decide), if_neg (by decide), if_neg (by decide), if_neg (by decide),
      if_neg (by decide), if_neg (by decide), if_neg (by decide), if_pos rfl,
      hrun (some "demo-session")]
  · unfold handleRpc
    simp only [if_neg m1, if_neg m2, if_neg m3, if_neg m4, if_neg m5, if_neg m6,
      if_neg m7, if_neg m8]

/-- C8 witness: the unknown tool `frobnicate` and the unknown method
`bogus`. -/
theorem unknown_tool_and_method_errors_witness :
    ("frobnicate" ∉ toolCatalogueNames) ∧
    ("bogus" ∉ recognizedMethods) ∧
    ((runTool "frobnicate" (orderParams "TCS" 1 none) none 0 rndHalf rndHalf "o" "t" st0).1 =
        .error ("Unknown tool: " ++ "frobnicate") ∧
     (handleRpc { method := "tools/call", name := "frobnicate"
                , arguments := orderParams "TCS" 1 none, uri := "" }
         0 rndHalf rndHalf "o" "t" st0).1 =
        .rpcError (-32603) ("Unknown tool: " ++ "frobnicate") ∧
     (handleRpc { method := "bogus", name := ""
                , arguments := orderParams "TCS" 1 none, uri := "" }
         0 rndHalf rndHalf "o" "t" st0).1 =
        .rpcError (-32601) "Method not found") :=
  ⟨by decide, by decide,
   unknown_tool_and_method_errors "frobnicate" (orderParams "TCS" 1 none) none 0
     rndHalf rndHalf "o" "t" st0
     { method := "bogus", name := "", arguments := orderParams "TCS" 1 none, uri := "" }
     (by decide) (by decide)⟩

/-- C2 (amended, per-step clause): an accepted BUY on a symbol already held
completes at the market execution price, sets the holding's quantity to
`old_qty + new_qty` and its cost-basis price to
`round2 ((old_qty*old_price + new_qty*price) / (old_qty + new_qty))`, and
debits the balance by the order value. -/
theorem buy_average_price_update (p : Params) (sid : Option String) (now : Int)
    (rndM rnd : ℕ → ℚ) (oid timeStr : String) (st : SessionState)
    (stock : Stock) (existing : Holding) (m' : MarketState)
    (hm : m' = updateMarket now rndM st.market)
    (hside : jsOrStr p.side p.type' = some "BUY")
    (hsym : lookupStock m' (jsToUpper p.symbol) = some stock)
    (hfind : st.account.holdings.find? (fun h => h.symbol == (jsToUpper p.symbol)) = some existing)
    (hfunds : ¬ st.account.balance < (p.qty : ℚ) * execPrice m' p (jsToUpper p.symbol)) :
    (runTool "place-order" p sid now rndM rnd oid timeStr st).1 =
      .ok (.orderComplete "COMPLETE" oid (execPrice m' p (jsToUpper p.symbol))) ∧
    (runTool "place-order" p sid now rndM rnd oid timeStr st).2.account.holdings.find?
        (fun h => h.symbol == (jsToUpper p.symbol)) =
      some { symbol := existing.symbol
           , qty := existing.qty + p.qty
           , price := round2
               (((existing.qty : ℚ) * existing.price +
                   (p.qty : ℚ) * execPrice m' p (jsToUpper p.symbol)) /
                 ((existing.qty : ℚ) + (p.qty : ℚ))) } ∧
    (runTool "place-order" p sid now rndM rnd oid timeStr st).2.account.balance =
      st.account.balance - (p.qty : ℚ) * execPrice m' p (jsToUpper p.symbol) := by
  subst hm
  rw [runTool_place_order_eq]
  unfold placeOrder
  dsimp only
  rw [hsym]
  dsimp only
  rw [if_pos hside, if_neg hfunds, hfind]
  dsimp only
  refine ⟨rfl, ?_, rfl⟩
  have hcast : ((existing.qty + p.qty : ℤ) : ℚ) = (existing.qty : ℚ) + (p.qty : ℚ) := by
    push_cast; ring
  rw [find?_updateHolding _ _ _ existing hfind rfl]
  rw [hcast]

/-- C2 witness: buying 2 more TCS at market price 3450 on top of the seeded
10 @ 3400 yields quantity 12 at price `round2 (40900/12) = 3408.33`. -/
theorem buy_average_price_update_witness :
    (runTool "place-order" (orderParams "TCS" 2 (some "BUY")) none 0 rndHalf rndHalf
        "o" "t" st0).2.account.holdings.find? (fun h => h.symbol == "TCS") =
      some { symbol := "TCS", qty := 12
           , price := round2 (((10 : ℚ) * 3400 + (2 : ℚ) * 3450) / ((10 : ℚ) + (2 : ℚ))) } :=
  (buy_average_price_update (orderParams "TCS" 2 (some "BUY")) none 0 rndHalf rndHalf
    "o" "t" st0 { price := 3450, trend := "UP" }
    { symbol := "TCS", qty := 10, price := 3400 }
    (updateMarket 0 rndHalf st0.market) rfl rfl rfl rfl (by with_unfolding_all decide)).2.1

/-- C2 counterexample: four consecutive accepted BUYs of HDFC (5 @ 1680.00,
then 2, 1, 1 @ 1677.46, the second call's input state being the first
call's output state and so on) leave the holding's price at 1678.86, while
the quantity-weighted mean of the four lots is 1678.8711; the stored price
differs from the rounded mean (1678.87) and from the mean itself by more
than one cent, so the stored average is not the weighted mean of the lot
prices within rounding to 2 decimals. -/
theorem buy_sequence_average_counterexample :
    (runTool "place-order" (orderParams "HDFC" 5 (some "BUY")) none 0 rndHalf rndHalf
        "o1" "t1" st0 =
      (.ok (.orderComplete "COMPLETE" "o1" 1680),
       { account := cexAcct1, market := initialMarketState 0 })) ∧
    (runTool "place-order" (orderParams "HDFC" 2 (some "BUY")) none 6000
        (rndHDFCMove (123/500)) rndHalf "o2" "t2"
        { account := cexAcct1, market := initialMarketState 0 } =
      (.ok (.orderComplete "COMPLETE" "o2" (167746/100)),
       { account := cexAcct2, market := cexMkt })) ∧
    (runTool "place-order" (orderParams "HDFC" 1 (some "BUY")) none 6100
        rndHalf rndHalf "o3" "t3" { account := cexAcct2, market := cexMkt } =
      (.ok (.orderComplete "COMPLETE" "o3" (167746/100)),
       { account := cexAcct3, market := cexMkt })) ∧
    (runTool "place-order" (orderParams "HDFC" 1 (some "BUY")) none 6200
        rndHalf rndHalf "o4" "t4" { account := cexAcct3, market := cexMkt } =
      (.ok (.orderComplete "COMPLETE" "o4" (167746/100)),
       { account := cexAcct4, market := cexMkt })) ∧
    (cexAcct4.holdings.find? (fun h => h.symbol == "HDFC") =
      some { symbol := "HDFC", qty := 9, price := 167886/100 }) ∧
    round2 (((5 : ℚ) * 1680 + (4 : ℚ) * (167746/100)) / 9) = 167887/100 ∧
    (167886 : ℚ)/100 ≠ 167887/100 ∧
    1/100 < |(167886 : ℚ)/100 - ((5 : ℚ) * 1680 + (4 : ℚ) * (167746/100)) / 9| := by
  refine ⟨cex_step1, cex_step2, cex_step3, cex_step4, by simp [cexAcct4],
    by norm_num [round2], by norm_num, ?_⟩
  rw [abs_sub_comm, abs_of_nonneg (by norm_num)]
  norm_num

/-- C3: for a SELL on a known symbol: if the symbol is not held, or the
requested quantity exceeds the held quantity, the order is rejected and
the whole session state (in particular holdings) is unchanged; if the
requested quantity equals the held quantity the order completes and the
symbol is removed entirely from holdings; and a SELL never leaves any
holding with a negative quantity. -/
theorem sell_validation_and_removal (p : Params) (sid : Option String) (now : Int)
    (rndM rnd : ℕ → ℚ) (oid timeStr : String) (st : SessionState) (stock : Stock)
    (hside : jsOrStr p.side p.type' = some "SELL")
    (hsym : lookupStock (updateMarket now rndM st.market) (jsToUpper p.symbol) = some stock) :
    (st.account.holdings.find? (fun h => h.symbol == jsToUpper p.symbol) = none →
      runTool "place-order" p sid now rndM rnd oid timeStr st =
        (.ok (.orderRejected "REJECTED" "Insufficient holdings"),
         { st with market := updateMarket now rndM st.market })) ∧
    (∀ e, st.account.holdings.find? (fun h => h.symbol == jsToUpper p.symbol) = some e →
      e.qty < p.qty →
      runTool "place-order" p sid now rndM rnd oid timeStr st =
        (.ok (.orderRejected "REJECTED" "Insufficient holdings"),
         { st with market := updateMarket now rndM st.market })) ∧
    (∀ e, st.account.holdings.find? (fun h => h.symbol == jsToUpper p.symbol) = some e →
      p.qty = e.qty →
      (runTool "place-order" p sid now rndM rnd oid timeStr st).1 =
        .ok (.orderComplete "COMPLETE" oid
          (execPrice (updateMarket now rndM st.market) p (jsToUpper p.symbol))) ∧
      ∀ h ∈ (runTool "place-order" p sid now rndM rnd oid timeStr st).2.account.holdings,
        h.symbol ≠ jsToUpper p.symbol) ∧
    ((∀ h ∈ st.account.holdings, 0 ≤ h.qty) →
      ∀ h ∈ (runTool "place-order" p sid now rndM rnd oid timeStr st).2.account.holdings,
        0 ≤ h.qty) := by
  rw [runTool_place_order_eq]
  unfold placeOrder
  dsimp only
  rw [hsym]
  dsimp only
  have hnb : ¬ jsOrStr p.side p.type' = some "BUY" := by
    rw [hside]; decide
  rw [if_neg hnb, if_pos hside]
  refine ⟨?_, ?_, ?_, ?_⟩
  · intro hf
    rw [hf]
  · intro e hf hlt
    rw [hf]
    dsimp only
    rw [if_pos hlt]
  · intro e hf heq
    rw [hf]
    dsimp only
    rw [if_neg (by rw [heq]; exact lt_irrefl e.qty)]
    rw [if_pos (by rw [heq]; exact sub_self e.qty)]
    refine ⟨rfl, ?_⟩
    intro h hh
    dsimp only at hh
    have := List.of_mem_filter hh
    simpa using this
  · intro hpos
    cases hf : st.account.holdings.find? (fun h => h.symbol == jsToUpper p.symbol) with
    | none =>
      dsimp only
      exact hpos
    | some e =>
      dsimp only
      by_cases hlt : e.qty < p.qty
      · rw [if_pos hlt]
        exact hpos
      · rw [if_neg hlt]
        by_cases hz : e.qty - p.qty = 0
        · rw [if_pos hz]
          intro h hh
          dsimp only at hh
          have hh' := List.mem_of_mem_filter hh
          rcases mem_updateHolding_of_find? _ _ _ _ hf h hh' with hmem | hupd
          · exact hpos h hmem
          · rw [hupd]
            simpa using le_of_not_lt hlt
        · rw [if_neg hz]
          intro h hh
          dsimp only at hh
          rcases mem_updateHolding_of_find? _ _ _ _ hf h hh with hmem | hupd
          · exact hpos h hmem
          · rw [hupd]
            simpa using le_of_not_lt hlt

/-- C3 witness: selling exactly the 5 held RELIANCE completes and removes
RELIANCE from holdings; the nonnegativity clause applies to the fresh
account. -/
theorem sell_validation_and_removal_witness :
    ((runTool "place-order" (orderParams "RELIANCE" 5 (some "SELL")) none 0 rndHalf rndHalf
        "o" "t" st0).1 =
      .ok (.orderComplete "COMPLETE" "o"
        (execPrice (updateMarket 0 rndHalf st0.market) (orderParams "RELIANCE" 5 (some "SELL"))
          (jsToUpper (orderParams "RELIANCE" 5 (some "SELL")).symbol))) ∧
     ∀ h ∈ (runTool "place-order" (orderParams "RELIANCE" 5 (some "SELL")) none 0 rndHalf rndHalf
        "o" "t" st0).2.account.holdings,
       h.symbol ≠ jsToUpper (orderParams "RELIANCE" 5 (some "SELL")).symbol) :=
  (sell_validation_and_removal (orderParams "RELIANCE" 5 (some "SELL")) none 0 rndHalf rndHalf
    "o" "t" st0 { price := 2850, trend := "FLAT" } rfl rfl).2.2.1
    { symbol := "RELIANCE", qty := 5, price := 2800 } rfl rfl

/-- C4: the ascending OHLC sequence returned by `get-history` for a known
symbol satisfies `open[k] = close[k-1]` for every `k >= 1`, exactly on the
returned (rounded) values: both fields round the same carried unrounded
value. -/
theorem history_adjacent_chaining (p : Params) (sid : Option String) (now : Int)
    (rndM rnd : ℕ → ℚ) (oid timeStr : String) (st : SessionState) (stock : Stock)
    (hsym : lookupStock (updateMarket now rndM st.market) (jsToUpper p.symbol) = some stock) :
    runTool "get-history" p sid now rndM rnd oid timeStr st =
      (.ok (.historyRes (jsToUpper p.symbol)
        ((genHistory rnd (effDays p.days).toNat 0 stock.price).reverse)),
       { st with market := updateMarket now rndM st.market }) ∧
    ∀ k, k + 1 < (effDays p.days).toNat →
      (((genHistory rnd (effDays p.days).toNat 0 stock.price).reverse)[k+1]?).map Candle.open_ =
        (((genHistory rnd (effDays p.days).toNat 0 stock.price).reverse)[k]?).map Candle.close := by
  constructor
  · rw [runTool_get_history_eq, hsym]
  · intro k hk
    exact genHistory_chain_ascending rnd (effDays p.days).toNat stock.price k hk

/-- C4 witness: a 3-day TCS history under the constant random stream chains
at the first adjacent pair. -/
theorem history_adjacent_chaining_witness :
    ((((genHistory rndHalf (effDays (historyParams "TCS" (some 3)).days).toNat 0
          (3450 : ℚ)).reverse)[1]?).map Candle.open_ =
      (((genHistory rndHalf (effDays (historyParams "TCS" (some 3)).days).toNat 0
          (3450 : ℚ)).reverse)[0]?).map Candle.close) :=
  (history_adjacent_chaining (historyParams "TCS" (some 3)) none 0 rndHalf rndHalf
    "o" "t" st0 { price := 3450, trend := "UP" } rfl).2 0 (by decide)

/-- C5 (amended): for a known symbol, `get-history` returns 30 entries when
`days` is absent and exactly N entries for every requested `days = N >= 1`
(the claim fails at N = 0, which JavaScript treats as absent); the output
is ordered chronologically ascending (strictly decreasing day offsets);
every entry has `high >= max(open, close)` and `low <= min(open, close)`;
and the final entry's close equals the symbol's current market price. -/
theorem history_shape_amended (p : Params) (sid : Option String) (now : Int)
    (rndM rnd : ℕ → ℚ) (oid timeStr : String) (st : SessionState) (stock : Stock)
    (hsym : lookupStock (updateMarket now rndM st.market) (jsToUpper p.symbol) = some stock)
    (hrnd : ∀ k, 0 ≤ rnd k ∧ rnd k ≤ 1)
    (hpos : 0 ≤ stock.price)
    (hr2 : round2 stock.price = stock.price) :
    runTool "get-history" p sid now rndM rnd oid timeStr st =
      (.ok (.historyRes (jsToUpper p.symbol)
        ((genHistory rnd (effDays p.days).toNat 0 stock.price).reverse)),
       { st with market := updateMarket now rndM st.market }) ∧
    (p.days = none →
      ((genHistory rnd (effDays p.days).toNat 0 stock.price).reverse).length = 30) ∧
    (∀ N : ℤ, p.days = some N → 1 ≤ N →
      ((((genHistory rnd (effDays p.days).toNat 0 stock.price).reverse).length : ℤ) = N)) ∧
    ((genHistory rnd (effDays p.days).toNat 0 stock.price).reverse).Pairwise
      (fun a b => b.dateOffset < a.dateOffset) ∧
    (∀ cd ∈ (genHistory rnd (effDays p.days).toNat 0 stock.price).reverse,
      max cd.open_ cd.close ≤ cd.high ∧ cd.low ≤ min cd.open_ cd.close) ∧
    (1 ≤ effDays p.days →
      (((genHistory rnd (effDays p.days).toNat 0 stock.price).reverse).getLast?).map
        Candle.close = some stock.price) := by
  refine ⟨?_, ?_, ?_, ?_, ?_, ?_⟩
  · rw [runTool_get_history_eq, hsym]
  · intro hd
    rw [hd]
    simp [genHistory_length, effDays]
  · intro N hd hN
    rw [hd]
    simp only [List.length_reverse, genHistory_length, effDays]
    rw [if_neg (by omega)]
    exact Int.toNat_of_nonneg (by omega)
  · rw [List.pairwise_reverse]
    exact genHistory_pairwise_offset rnd _ 0 stock.price
  · intro cd hcd
    rw [List.mem_reverse] at hcd
    exact genHistory_high_low rnd hrnd _ 0 stock.price hpos cd hcd
  · intro hd
    have h1 : ((genHistory rnd (effDays p.days).toNat 0 stock.price).reverse).getLast? =
        (genHistory rnd (effDays p.days).toNat 0 stock.price).head? := by
      rw [List.getLast?_eq_head?_reverse, List.reverse_reverse]
    rw [h1, genHistory_head_close rnd _ 0 stock.price (by omega), hr2]

/-- C5 witness: requesting a 3-day TCS history returns exactly 3 entries. -/
theorem history_shape_amended_witness :
    ((((genHistory rndHalf (effDays (historyParams "TCS" (some 3)).days).toNat 0
        ((3450 : ℚ))).reverse).length : ℤ) = 3) :=
  (history_shape_amended (historyParams "TCS" (some 3)) none 0 rndHalf rndHalf "o" "t" st0
    { price := 3450, trend := "UP" } rfl
    (fun k => ⟨by norm_num [rndHalf], by norm_num [rndHalf]⟩)
    (by norm_num) (by norm_num [round2])).2.2.1 3 rfl (by norm_num)

/-- C5 counterexample: `get-history` with requested `days = 0` returns 30
entries, not 0: JavaScript `params.days || 30` treats 0 as absent. -/
theorem history_days_zero_counterexample :
    runTool "get-history" (historyParams "TCS" (some 0)) none 0 rndHalf rndHalf "o" "t" st0 =
      (.ok (.historyRes "TCS" ((genHistory rndHalf 30 0 3450).reverse)),
       { st0 with market := updateMarket 0 rndHalf st0.market }) ∧
    ((genHistory rndHalf 30 0 3450).reverse).length = 30 ∧ (30 : ℤ) ≠ 0 := by
  refine ⟨?_, by simp [genHistory_length], by decide⟩
  rw [runTool_get_history_eq]
  rfl

/-- C6: the market refresh is a no-op whenever the elapsed time since
`lastUpdate` is at most 5000 ms (the entire market state is unchanged);
when it exceeds the threshold, every instrument's price moves by a delta
`(r - 0.5) * 10` in `[-5, 5)` and is rounded to 2 decimals, its trend is
UP for a positive delta and DOWN otherwise, and `lastUpdate` becomes the
current time. -/
theorem market_refresh_gate (now : Int) (rnd : ℕ → ℚ) (m : MarketState)
    (hrnd : ∀ k, 0 ≤ rnd k ∧ rnd k < 1) :
    (now - m.lastUpdate ≤ 5000 → updateMarket now rnd m = m) ∧
    (5000 < now - m.lastUpdate →
      (updateMarket now rnd m).lastUpdate = now ∧
      (updateMarket now rnd m).news = m.news ∧
      (updateMarket now rnd m).stocks.length = m.stocks.length ∧
      ∀ k, (hk : k < m.stocks.length) →
        ∃ delta : ℚ, delta = (rnd k - 1/2) * 10 ∧ -5 ≤ delta ∧ delta < 5 ∧
          (updateMarket now rnd m).stocks[k]? =
            some ((m.stocks.get ⟨k, hk⟩).1,
              { price := round2 ((m.stocks.get ⟨k, hk⟩).2.price + delta)
                trend := if 0 < delta then "UP" else "DOWN" })) := by
  constructor
  · intro h
    unfold updateMarket
    rw [if_neg (not_lt.mpr h)]
  · intro h
    unfold updateMarket
    rw [if_pos h]
    refine ⟨rfl, rfl, by simp, ?_⟩
    intro k hk
    refine ⟨(rnd k - 1/2) * 10, rfl, by nlinarith [(hrnd k).1], by nlinarith [(hrnd k).2], ?_⟩
    dsimp only
    rw [List.getElem?_map, List.getElem?_enum, List.getElem?_eq_getElem hk]
    rfl

/-- C6 witness: a refresh 0 ms after the initial `lastUpdate` is a no-op. -/
theorem market_refresh_gate_witness :
    (∀ k, 0 ≤ rndHDFCMove (123/500) k ∧ rndHDFCMove (123/500) k < 1) ∧
    ((0 : ℤ) - (initialMarketState 0).lastUpdate ≤ 5000 →
      updateMarket 0 (rndHDFCMove (123/500)) (initialMarketState 0) = initialMarketState 0) :=
  have hr : ∀ k, 0 ≤ rndHDFCMove (123/500) k ∧ rndHDFCMove (123/500) k < 1 := by
    intro k
    unfold rndHDFCMove
    by_cases hk : k = 3
    · rw [if_pos hk]; constructor <;> norm_num
    · rw [if_neg hk]; constructor <;> norm_num
  ⟨hr, (market_refresh_gate 0 (rndHDFCMove (123/500)) (initialMarketState 0) hr).1⟩

end ZerodhaMock
